import Mathlib

/-!
Shallow embedding of the scan-coordination core of the scAnt-tui repository:
the per-axis stepper state machine (`scripts/stepper_motor.py`, class
`StepperMotor`) and the cross-axis scan sequencer (`scripts/scan.py`, class
`ScanManager`).

Modelling conventions:
* Python numeric position fields are machine ints within the Tic controller's
  int32 range (the TUI inputs are declared `type="integer"` with range
  -2,147,483,648 to 2,147,483,647); they are embedded as `Int`.
* `min_position`, `max_position` and `divisions` are stored as strings in the
  source and parsed with `int(...)` / `int(float(...))` at each use, raising
  (and being caught) on non-numeric text.  They are embedded as `Option Int`:
  `some n` for a string parsing to the integer n, `none` for a string whose
  conversion raises `ValueError`/`TypeError`.
* Python's `int(x / y)` on int32-range operands (float division then
  truncation toward zero) coincides exactly with integer T-division, embedded
  as `Int.tdiv` (on doubles, the quotient of two magnitude-< 2^31 integers is
  rounded to within 2^-22 of the exact rational, far less than its distance
  (at least 2^-31) to any other integer, so truncation is unaffected).
  Likewise `int(target * 0.05)` equals `Int.tdiv target 20` on that range.
* Device I/O on the Tic handle is folded into the state: `ticPos` is the
  position the handle reports via `get_current_position()`.  `halt_and_hold()`
  keeps it, `halt_and_set_position(p)` sets it to `p`.  UI display updates,
  logging and timer bookkeeping have no effect on the modelled state and are
  omitted.
-/

namespace ScAnt

/-- States for the scanning process (`utils.ScanState`). -/
inductive ScanState where
  | IDLE
  | MOVING
  | WAITING
deriving DecidableEq, Repr

/-- One stepper-motor axis (`StepperMotor`): the runtime fields the scan logic
reads and writes. -/
structure Stepper where
  stepper_num : Nat
  axis : String
  energized : Bool
  initialized : Bool
  /-- Whether `self.tic` is a connected handle (`tic is not None`). -/
  ticConnected : Bool
  /-- The position the Tic handle reports (`tic.get_current_position()`). -/
  ticPos : Int
  current_position : Int
  target_position : Int
  min_position : Option Int
  max_position : Option Int
  divisions : Option Int
  current_division : Nat
  scan_state : ScanState
deriving DecidableEq, Repr

/-- A photo request put on `camera_photo_queue`
(`{'message_type': TAKE_PHOTO, 'position': ..., 'axis': ...}`). -/
structure PhotoMsg where
  axis : String
  position : Int
deriving DecidableEq, Repr

/-- The status snapshot a stepper sends to the scan manager.  Modelled from the
constructor call in `StepperMotor.update_scan_state`; the `StepperStatus`
dataclass itself is imported from `utils` but missing from the repository
files, so its fields are taken from that call site (only the three fields the
sequencer reads are kept). -/
structure StepperStatus where
  scan_state : ScanState
  current_division : Nat
  total_divisions : Nat
deriving DecidableEq, Repr

/-- The scan manager (`ScanManager`) together with the three stepper motors it
drives.  The repository binds stepper 1 = Forward, stepper 2 = Tilt,
stepper 3 = Yaw: `utils.get_axes()` returns `["Forward", "Tilt", "Yaw"]` and
stepper N defaults its axis to `axes[N-1]` (`stepper_motor.py` `on_mount`,
`settings.py` stepper defaults and `main.py` alike).  The local variable
names inside `ScanManager.handle_scan_sequence` label steppers 2 and 3 the
other way round, but the function only reads `stepper_statuses` by stepper
number, so the binding above is the one that executes.
`statFwd`/`statTilt`/`statYaw` are the latest `StepperStatus` snapshots in
`self.stepper_statuses` for steppers 1, 2, 3 (`none` when the dict has no
entry for that stepper yet). -/
structure ScanSystem where
  scanning : Bool
  fwd : Stepper
  tilt : Stepper
  yaw : Stepper
  statFwd : Option StepperStatus
  statTilt : Option StepperStatus
  statYaw : Option StepperStatus
deriving DecidableEq, Repr

/-- `StepperMotor.get_division_positions`, numeric core: the list of stop
positions for parsed `min_position`, `max_position`, `divisions`.  Python's
`int((max_pos - min_pos) / (div_count - 1))` is T-division (`Int.tdiv`). -/
def get_division_positions (min_pos max_pos div_count : Int) : List Int :=
  if div_count < 2 then [min_pos, max_pos]
  else
    let step := Int.tdiv (max_pos - min_pos) (div_count - 1)
    (List.range div_count.toNat).map (fun i : Nat => min_pos + (i : Int) * step)

/-- `StepperMotor.get_division_positions` including the `try/except` around the
string conversions: a non-numeric field (`none`) yields `[]`. -/
def parsedPositions (mn mx dv : Option Int) : List Int :=
  match mn, mx, dv with
  | some a, some b, some c => get_division_positions a b c
  | _, _, _ => []

/-- The position sequence of one stepper's configured fields. -/
def Stepper.divPositions (s : Stepper) : List Int :=
  parsedPositions s.min_position s.max_position s.divisions

/-- `StepperMotor.validate_scan_parameters`: the three fields parse to numbers
(else `return False` on the emptiness checks, or `ValueError` caught), the
motor is energized and initialized, divisions > 0 and max > min. -/
def Stepper.validate_scan_parameters (s : Stepper) : Bool :=
  match s.divisions, s.min_position, s.max_position with
  | some dv, some mn, some mx =>
      s.energized && s.initialized && decide (0 < dv) && decide (mn < mx)
  | _, _, _ => false

/-- `StepperMotor.is_position_reached`: within 5% of the target
(`abs(int(target_pos * 0.05))`, which is `|Int.tdiv target 20|` on the int32
input range). -/
def Stepper.is_position_reached (s : Stepper) : Bool :=
  if !s.energized || !s.ticConnected then false
  else
    decide ((s.current_position - s.target_position).natAbs ≤
      (Int.tdiv s.target_position 20).natAbs)

/-- `StepperMotor.move_to_position`: no-op unless energized and initialized;
otherwise set the target and enter MOVING. -/
def Stepper.move_to_position (s : Stepper) (pos : Int) : Stepper :=
  if !s.energized || !s.initialized then s
  else { s with target_position := pos, scan_state := ScanState.MOVING }

/-- `StepperMotor.stop_scan`: when a handle is connected and energized, halt
the motor, make its reported position the target (`halt_and_set_position`
keeps `ticPos`); in every case enter IDLE and reset the division counter. -/
def Stepper.stop_scan (s : Stepper) : Stepper :=
  let s1 := if s.ticConnected && s.energized
    then { s with target_position := s.ticPos }
    else s
  { s1 with scan_state := ScanState.IDLE, current_division := 0 }

/-- `StepperMotor.continue_scan`: only acts from WAITING; increments the
division counter, stops the scan when the counter passes the end of the
position list, else targets the next position and re-enters MOVING. -/
def Stepper.continue_scan (s : Stepper) : Stepper :=
  if s.scan_state ≠ ScanState.WAITING then s
  else
    let positions := s.divPositions
    let dv := s.current_division + 1
    if positions.length ≤ dv then
      Stepper.stop_scan { s with current_division := dv }
    else
      { s with current_division := dv,
               target_position := positions.getD dv 0,
               scan_state := ScanState.MOVING }

/-- `StepperMotor.start_scan`: rejected (unchanged state) when
`validate_scan_parameters` fails or the computed position list is empty;
otherwise division counter 0, target the first position, enter MOVING. -/
def Stepper.start_scan (s : Stepper) : Stepper :=
  if !s.validate_scan_parameters then s
  else
    let positions := s.divPositions
    if positions.isEmpty then s
    else
      { s with current_division := 0,
               target_position := positions.getD 0 0,
               scan_state := ScanState.MOVING }

/-- `StepperMotor.zero_stepper`: no-op unless the handle is connected and the
motor initialized; stops a running scan first, then `halt_and_set_position(0)`
redefines the physical position as logical 0 and both tracking fields are
reset to 0. -/
def Stepper.zero_stepper (s : Stepper) : Stepper :=
  if !s.ticConnected || !s.initialized then s
  else
    let s1 := if s.scan_state ≠ ScanState.IDLE then s.stop_scan else s
    { s1 with ticPos := 0, current_position := 0, target_position := 0 }

/-- `StepperMotor.update_scan_state`, the 0.1-period tick: outside IDLE a
status snapshot is sent (modelled separately via `statusOf`); when MOVING and
the current position equals the target exactly, enter WAITING and — for
stepper 1 (Forward) only — put one TAKE_PHOTO message on the camera queue.
Returns the new state and the photo messages emitted by this tick. -/
def Stepper.update_scan_state (s : Stepper) : Stepper × List PhotoMsg :=
  if s.scan_state = ScanState.IDLE then (s, [])
  else
    if s.scan_state = ScanState.MOVING then
      if s.current_position = s.target_position then
        let s1 := { s with scan_state := ScanState.WAITING }
        if s.stepper_num = 1 then (s1, [⟨s.axis, s.current_position⟩])
        else (s1, [])
      else (s, [])
    else (s, [])

/-- The status snapshot `update_scan_state` sends to the scan manager queue
(restricted to the fields `handle_scan_sequence` reads). -/
def Stepper.statusOf (s : Stepper) : StepperStatus :=
  { scan_state := s.scan_state,
    current_division := s.current_division,
    total_divisions := s.divPositions.length }

/-- `ScanManager.move_stepper(n, division=0)`: when the position list is
non-empty, set the division counter to 0 and `move_to_position(positions[0])`
(the counter is written before `move_to_position`'s energized guard runs). -/
def Stepper.moveDiv0 (s : Stepper) : Stepper :=
  let positions := s.divPositions
  if 0 < positions.length then
    Stepper.move_to_position { s with current_division := 0 } (positions.getD 0 0)
  else s

/-- `ScanManager.handle_scan_sequence`: runs only while scanning and once all
three status snapshots exist; when all three report WAITING, advance
stepper 1 (Forward) if it has divisions left, else reset stepper 1 and
advance stepper 2 (Tilt), else reset steppers 1 and 2 and advance stepper 3
(Yaw), else clear the `scanning` flag. -/
def handle_scan_sequence (sys : ScanSystem) : ScanSystem :=
  if !sys.scanning then sys
  else
    match sys.statFwd, sys.statTilt, sys.statYaw with
    | some f, some t, some y =>
      if f.scan_state = ScanState.WAITING ∧ t.scan_state = ScanState.WAITING ∧
          y.scan_state = ScanState.WAITING then
        if f.current_division < f.total_divisions - 1 then
          { sys with fwd := sys.fwd.continue_scan }
        else if t.current_division < t.total_divisions - 1 then
          { sys with fwd := sys.fwd.moveDiv0, tilt := sys.tilt.continue_scan }
        else if y.current_division < y.total_divisions - 1 then
          { sys with fwd := sys.fwd.moveDiv0, tilt := sys.tilt.moveDiv0,
                     yaw := sys.yaw.continue_scan }
        else { sys with scanning := false }
      else sys
    | _, _, _ => sys

/-- `ScanManager.emergency_stop`: clear the scanning flag and stop every
motor. -/
def emergency_stop (sys : ScanSystem) : ScanSystem :=
  { sys with scanning := false,
             fwd := sys.fwd.stop_scan,
             tilt := sys.tilt.stop_scan,
             yaw := sys.yaw.stop_scan }

/-! ### Concrete states used as proof inputs -/

/-- A stepper with valid parameters, ready to scan, used as witness input. -/
def readyStepper : Stepper :=
  { stepper_num := 1, axis := "Forward", energized := true, initialized := true,
    ticConnected := true, ticPos := 0, current_position := 0,
    target_position := 7, min_position := some 0, max_position := some 100,
    divisions := some 5, current_division := 3,
    scan_state := ScanState.IDLE }

/-- A stepper dwelling at division 0 of the three-point grid [0, 50, 100],
used as witness input. -/
def waitingStepper : Stepper :=
  { stepper_num := 1, axis := "Forward", energized := true, initialized := true,
    ticConnected := true, ticPos := 0, current_position := 0,
    target_position := 0, min_position := some 0, max_position := some 100,
    divisions := some 3, current_division := 0,
    scan_state := ScanState.WAITING }

/-- A stepper in Moving at position 96 of target 100: inside the documented
5% tolerance but not exactly at the target. -/
def nearTargetStepper : Stepper :=
  { stepper_num := 1, axis := "Forward", energized := true, initialized := true,
    ticConnected := true, ticPos := 96, current_position := 96,
    target_position := 100, min_position := some 0, max_position := some 100,
    divisions := some 5, current_division := 4,
    scan_state := ScanState.MOVING }

/-- A Forward stepper in Moving exactly at its target. -/
def atTargetStepper : Stepper :=
  { stepper_num := 1, axis := "Forward", energized := true, initialized := true,
    ticConnected := true, ticPos := 100, current_position := 100,
    target_position := 100, min_position := some 0, max_position := some 100,
    divisions := some 5, current_division := 2,
    scan_state := ScanState.MOVING }

/-- A stepper dwelling at the last division of the grid [0, 50, 100]. -/
def lastDivisionStepper : Stepper :=
  { stepper_num := 1, axis := "Forward", energized := true, initialized := true,
    ticConnected := true, ticPos := 100, current_position := 100,
    target_position := 100, min_position := some 0, max_position := some 100,
    divisions := some 3, current_division := 2,
    scan_state := ScanState.WAITING }

/-- A de-energized but initialized and connected stepper away from zero. -/
def deenergizedStepper : Stepper :=
  { stepper_num := 2, axis := "Tilt", energized := false, initialized := true,
    ticConnected := true, ticPos := 5, current_position := 5,
    target_position := 7, min_position := some 0, max_position := some 10,
    divisions := some 2, current_division := 0,
    scan_state := ScanState.IDLE }

/-- A Forward stepper that has exhausted its two divisions of [0, 10] and is
dwelling at the last one. -/
def fwdDone : Stepper :=
  { stepper_num := 1, axis := "Forward", energized := true, initialized := true,
    ticConnected := true, ticPos := 10, current_position := 10,
    target_position := 10, min_position := some 0, max_position := some 10,
    divisions := some 2, current_division := 1,
    scan_state := ScanState.WAITING }

/-- A Tilt stepper (stepper 2) dwelling at division 0 of 2, with divisions
remaining. -/
def tiltReady : Stepper :=
  { stepper_num := 2, axis := "Tilt", energized := true, initialized := true,
    ticConnected := true, ticPos := 0, current_position := 0,
    target_position := 0, min_position := some 0, max_position := some 10,
    divisions := some 2, current_division := 0,
    scan_state := ScanState.WAITING }

/-- A Yaw stepper (stepper 3) dwelling at division 0 of 2, with divisions
remaining. -/
def yawReady : Stepper :=
  { stepper_num := 3, axis := "Yaw", energized := true, initialized := true,
    ticConnected := true, ticPos := 0, current_position := 0,
    target_position := 0, min_position := some 0, max_position := some 10,
    divisions := some 2, current_division := 0,
    scan_state := ScanState.WAITING }

/-- A mid-scan system: Forward has exhausted its grid, Tilt and Yaw both have
divisions remaining, all three dwelling, statuses current. -/
def midScanSystem : ScanSystem :=
  { scanning := true, fwd := fwdDone, tilt := tiltReady, yaw := yawReady,
    statFwd := some fwdDone.statusOf, statTilt := some tiltReady.statusOf,
    statYaw := some yawReady.statusOf }

/-! ### Helper lemmas -/

/-- The computed position list is never empty on numeric inputs: the
degenerate branch returns two points and the general branch maps over a range
of at least two indices. -/
lemma get_division_positions_unfold (mn mx dv : Int) (h : ¬ dv < 2) :
    get_division_positions mn mx dv =
      (List.range dv.toNat).map
        (fun i : Nat => mn + (i : Int) * Int.tdiv (mx - mn) (dv - 1)) := by
  unfold get_division_positions
  rw [if_neg h]

lemma get_division_positions_ne_nil (mn mx dv : Int) :
    get_division_positions mn mx dv ≠ [] := by
  by_cases h : dv < 2
  · unfold get_division_positions
    rw [if_pos h]
    exact List.cons_ne_nil _ _
  · rw [get_division_positions_unfold mn mx dv h]
    intro hc
    rw [List.map_eq_nil_iff, List.range_eq_nil] at hc
    omega

/-- `stop_scan` is idempotent: it only writes fields it then leaves fixed. -/
lemma stop_scan_idem (s : Stepper) :
    s.stop_scan.stop_scan = s.stop_scan := by
  by_cases h : s.ticConnected && s.energized <;>
    simp [Stepper.stop_scan, h]

lemma stop_scan_scan_state (s : Stepper) :
    s.stop_scan.scan_state = ScanState.IDLE := by
  by_cases h : s.ticConnected && s.energized <;> simp [Stepper.stop_scan, h]

lemma stop_scan_current_division (s : Stepper) :
    s.stop_scan.current_division = 0 := by
  by_cases h : s.ticConnected && s.energized <;> simp [Stepper.stop_scan, h]

lemma stop_scan_target (s : Stepper) (h1 : s.ticConnected = true)
    (h2 : s.energized = true) :
    s.stop_scan.target_position = s.ticPos := by
  simp [Stepper.stop_scan, h1, h2]

/-- `validate_scan_parameters` succeeds exactly when every field parses, the
motor is ready, divisions is positive and the bounds are ordered. -/
lemma validate_char (s : Stepper) :
    s.validate_scan_parameters = true ↔
      ∃ dval mnv mxv : Int, s.divisions = some dval ∧
        s.min_position = some mnv ∧ s.max_position = some mxv ∧
        s.energized = true ∧ s.initialized = true ∧ 0 < dval ∧ mnv < mxv := by
  rcases hd : s.divisions with _ | dval <;>
    rcases hmn : s.min_position with _ | mnv <;>
      rcases hmx : s.max_position with _ | mxv <;>
        simp [Stepper.validate_scan_parameters, hd, hmn, hmx, and_assoc]

/-! ### Claims -/

/-- Claim C2 (confirmed, on the spec's domain max > min): with fewer than two
divisions the grid is exactly [min, max]; otherwise it is
[min + i*step for i < divisions] with step = floor((max-min)/(divisions-1))
(floor and Python's truncation agree since max > min), so it has length
`divisions`, starts at min and is non-decreasing; and the three quoted
examples evaluate as stated. -/
theorem C2_position_grid (mn mx dv : Int) (h : mn < mx) :
    (dv < 2 → get_division_positions mn mx dv = [mn, mx]) ∧
    (2 ≤ dv →
      get_division_positions mn mx dv =
        (List.range dv.toNat).map
          (fun i : Nat => mn + (i : Int) * Int.fdiv (mx - mn) (dv - 1)) ∧
      (get_division_positions mn mx dv).length = dv.toNat ∧
      (get_division_positions mn mx dv).getD 0 0 = mn ∧
      List.Pairwise (· ≤ ·) (get_division_positions mn mx dv)) ∧
    get_division_positions 0 100 5 = [0, 25, 50, 75, 100] ∧
    get_division_positions 0 100 3 = [0, 50, 100] ∧
    get_division_positions 0 10 4 = [0, 3, 6, 9] := by
  refine ⟨fun h2 => by unfold get_division_positions; rw [if_pos h2],
    fun h2 => ?_, by decide, by decide, by decide⟩
  have hnot : ¬ dv < 2 := by omega
  have hu := get_division_positions_unfold mn mx dv hnot
  have hfd : Int.fdiv (mx - mn) (dv - 1) = Int.tdiv (mx - mn) (dv - 1) :=
    Int.fdiv_eq_tdiv (by omega) (by omega)
  have hstep : 0 ≤ Int.tdiv (mx - mn) (dv - 1) :=
    Int.tdiv_nonneg (by omega) (by omega)
  have hpos : 0 < dv.toNat := by omega
  refine ⟨by rw [hfd, hu], by rw [hu, List.length_map, List.length_range],
    ?_, ?_⟩
  · rw [hu, List.getD_eq_getElem?_getD, List.getElem?_map,
      List.getElem?_range hpos]
    simp
  · rw [hu, List.pairwise_map]
    refine (List.pairwise_lt_range _).imp ?_
    intro a b hab
    have hcast : (a : Int) ≤ (b : Int) := by exact_mod_cast le_of_lt hab
    exact add_le_add_left (mul_le_mul_of_nonneg_right hcast hstep) mn

/-- Witness for C2 at (min, max, divisions) = (0, 100, 5). -/
theorem C2_position_grid_witness :
    get_division_positions 0 100 5 = [0, 25, 50, 75, 100] :=
  (C2_position_grid 0 100 5 (by decide)).2.2.1

/-- Claim C4 (corrected), counterexample: with numeric min = 10 ≥ max = 0 and
divisions = 3 the code does not return an empty list — it applies the usual
formula with the negative truncated step -5 and returns [10, 5, 0]. -/
theorem C4_counterexample :
    get_division_positions 10 0 3 = [10, 5, 0] ∧
    get_division_positions 10 0 3 ≠ [] := by
  refine ⟨by decide, by decide⟩

/-- Claim C4 (corrected, amended): the position computation returns an empty
list exactly when one of min, max, divisions fails numeric conversion; for
numeric inputs — including every max ≤ min — it never returns an empty list,
applying the same formula with the (possibly non-positive) truncated step. -/
theorem C4_empty_only_on_parse_failure :
    (∀ mn mx dv : Int, get_division_positions mn mx dv ≠ []) ∧
    (∀ mn mx dv : Option Int, mn = none ∨ mx = none ∨ dv = none →
      parsedPositions mn mx dv = []) ∧
    (∀ mn mx dv : Int,
      parsedPositions (some mn) (some mx) (some dv) =
        get_division_positions mn mx dv) := by
  refine ⟨get_division_positions_ne_nil, ?_, fun _ _ _ => rfl⟩
  intro mn mx dv h
  rcases mn with _ | a <;> rcases mx with _ | b <;> rcases dv with _ | c <;>
    simp_all [parsedPositions]

/-- Witness for C4's amended claim: a missing minimum yields [], and the
numeric input (10, 0, 3) — max below min — yields a non-empty list. -/
theorem C4_empty_only_on_parse_failure_witness :
    parsedPositions none (some 0) (some 3) = [] ∧
    get_division_positions 10 0 3 ≠ [] :=
  ⟨C4_empty_only_on_parse_failure.2.1 none (some 0) (some 3) (Or.inl rfl),
    C4_empty_only_on_parse_failure.1 10 0 3⟩

/-- Claim C5 (confirmed): `start_scan` with invalid parameters — divisions not
positive, max ≤ min, a missing/non-numeric field, or a motor that is not
energized or not initialized — leaves the axis completely unchanged; with
valid parameters from Idle it resets the division index to 0, targets the
first grid position and enters Moving. -/
theorem C5_start_scan (s : Stepper) :
    (s.validate_scan_parameters = false → s.start_scan = s) ∧
    (s.divisions = none ∨ s.min_position = none ∨ s.max_position = none →
      s.start_scan = s) ∧
    (∀ dval : Int, s.divisions = some dval → dval ≤ 0 → s.start_scan = s) ∧
    (∀ mnv mxv : Int, s.min_position = some mnv → s.max_position = some mxv →
      mxv ≤ mnv → s.start_scan = s) ∧
    (s.energized = false ∨ s.initialized = false → s.start_scan = s) ∧
    (s.validate_scan_parameters = true → s.scan_state = ScanState.IDLE →
      s.start_scan.current_division = 0 ∧
      s.divPositions ≠ [] ∧
      s.start_scan.target_position = s.divPositions.getD 0 0 ∧
      s.start_scan.scan_state = ScanState.MOVING) := by
  have hA : s.validate_scan_parameters = false → s.start_scan = s := by
    intro h
    simp [Stepper.start_scan, h]
  have hNot : ∀ P : Prop,
      (s.validate_scan_parameters = true → P) → (¬ P → s.start_scan = s) := by
    intro P hPv hnP
    apply hA
    rcases hval : s.validate_scan_parameters
    · rfl
    · exact absurd (hPv hval) hnP
  refine ⟨hA, ?_, ?_, ?_, ?_, ?_⟩
  · intro h
    apply hA
    rcases hval : s.validate_scan_parameters
    · rfl
    · obtain ⟨dval, mnv, mxv, hd, hmn, hmx, -⟩ := (validate_char s).mp hval
      rcases h with h | h | h <;> simp_all
  · intro dval hd hle
    apply hA
    rcases hval : s.validate_scan_parameters
    · rfl
    · obtain ⟨d2, m2, x2, hd2, -, -, -, -, hdp, -⟩ := (validate_char s).mp hval
      rw [hd] at hd2
      injection hd2 with hd2
      omega
  · intro mnv mxv hmn hmx hle
    apply hA
    rcases hval : s.validate_scan_parameters
    · rfl
    · obtain ⟨d2, m2, x2, -, hm2, hx2, -, -, -, hlt⟩ := (validate_char s).mp hval
      rw [hmn] at hm2
      rw [hmx] at hx2
      injection hm2 with hm2
      injection hx2 with hx2
      omega
  · intro h
    apply hA
    rcases hval : s.validate_scan_parameters
    · rfl
    · obtain ⟨d2, m2, x2, -, -, -, hen, hini, -⟩ := (validate_char s).mp hval
      rcases h with h | h <;> simp_all
  · intro hv _hidle
    obtain ⟨dval, mnv, mxv, hd, hmn, hmx, -⟩ := (validate_char s).mp hv
    have hpp : s.divPositions = get_division_positions mnv mxv dval := by
      simp [Stepper.divPositions, parsedPositions, hd, hmn, hmx]
    have hne : s.divPositions ≠ [] := by
      rw [hpp]
      exact get_division_positions_ne_nil mnv mxv dval
    have hemp : s.divPositions.isEmpty = false := by
      rcases hl : s.divPositions with _ | ⟨a, t⟩
      · exact absurd hl hne
      · rfl
    have hss : s.start_scan =
        { s with current_division := 0,
                 target_position := s.divPositions.getD 0 0,
                 scan_state := ScanState.MOVING } := by
      simp [Stepper.start_scan, hv, hemp]
    rw [hss]
    exact ⟨rfl, hne, rfl, rfl⟩

/-- Witness for C5: the concrete ready stepper starts its scan into Moving
with division 0 and target 0 (the first element of [0, 25, 50, 75, 100]). -/
theorem C5_start_scan_witness :
    readyStepper.start_scan.current_division = 0 ∧
    readyStepper.start_scan.target_position = 0 ∧
    readyStepper.start_scan.scan_state = ScanState.MOVING := by
  have h := (C5_start_scan readyStepper).2.2.2.2.2 (by decide) rfl
  exact ⟨h.1, by rw [h.2.2.1]; decide, h.2.2.2⟩

/-- Claim C6 (confirmed): `continue_scan` is a no-op outside Waiting; from
Waiting it increments the division index, transitions to Idle when the new
index has passed the end of the position sequence, and otherwise targets the
position at the new index and re-enters Moving. -/
theorem C6_continue_scan (s : Stepper) :
    (s.scan_state ≠ ScanState.WAITING → s.continue_scan = s) ∧
    (s.scan_state = ScanState.WAITING →
      (s.divPositions.length ≤ s.current_division + 1 →
        s.continue_scan.scan_state = ScanState.IDLE) ∧
      (s.current_division + 1 < s.divPositions.length →
        s.continue_scan.current_division = s.current_division + 1 ∧
        s.continue_scan.target_position =
          s.divPositions.getD (s.current_division + 1) 0 ∧
        s.continue_scan.scan_state = ScanState.MOVING)) := by
  constructor
  · intro h
    simp [Stepper.continue_scan, h]
  · intro hw
    constructor
    · intro hend
      simp [Stepper.continue_scan, hw, hend, stop_scan_scan_state]
    · intro hlt
      have hnot : ¬ s.divPositions.length ≤ s.current_division + 1 := by omega
      simp [Stepper.continue_scan, hw, hnot]

/-- Witness for C6 at the concrete waiting stepper: it advances to division 1
of [0, 50, 100], targeting 50 in Moving. -/
theorem C6_continue_scan_witness :
    waitingStepper.continue_scan.current_division = 1 ∧
    waitingStepper.continue_scan.target_position = 50 ∧
    waitingStepper.continue_scan.scan_state = ScanState.MOVING := by
  have h := ((C6_continue_scan waitingStepper).2 rfl).2 (by decide)
  exact ⟨h.1, by rw [h.2.1]; decide, h.2.2⟩

/-- Claim C3 (corrected), counterexample: at current 96 / target 100 the 5%
tolerance predicate `is_position_reached` holds (|100-96| = 4 ≤ 5), yet the
tick leaves the axis in Moving — `update_scan_state` compares for exact
equality and never consults the tolerance. -/
theorem C3_counterexample :
    nearTargetStepper.is_position_reached = true ∧
    nearTargetStepper.scan_state = ScanState.MOVING ∧
    nearTargetStepper.update_scan_state.fst.scan_state = ScanState.MOVING := by
  refine ⟨by decide, rfl, by decide⟩

/-- Claim C3 (corrected, amended): while an axis is in Moving, the
tick-driven transition to Waiting occurs exactly when
current_position = target_position (exact equality); the 5% tolerance test
exists as `is_position_reached` — under which target 100 / current 96 counts
as reached and 94 does not — but the tick transition does not use it. -/
theorem C3_exact_equality_transition (s : Stepper)
    (h : s.scan_state = ScanState.MOVING) :
    (s.update_scan_state.fst.scan_state = ScanState.WAITING ↔
      s.current_position = s.target_position) ∧
    (s.energized = true → s.ticConnected = true → s.target_position = 100 →
      (s.current_position = 96 → s.is_position_reached = true) ∧
      (s.current_position = 94 → s.is_position_reached = false)) := by
  constructor
  · by_cases hc : s.current_position = s.target_position
    · by_cases hn : s.stepper_num = 1 <;>
        simp [Stepper.update_scan_state, h, hc, hn]
    · simp [Stepper.update_scan_state, h, hc]
  · intro hen htic htgt
    constructor <;> intro hcp <;>
      · simp only [Stepper.is_position_reached, hen, htic, htgt, hcp]
        decide

/-- Witness for C3's amended claim: a Moving stepper exactly at its target
transitions to Waiting on the tick. -/
theorem C3_exact_equality_transition_witness :
    atTargetStepper.update_scan_state.fst.scan_state = ScanState.WAITING :=
  (C3_exact_equality_transition atTargetStepper rfl).1.mpr rfl

/-- Claim C7 (confirmed): a tick emits a photo request exactly at the
Moving-to-Waiting transition of stepper 1 (Forward), exactly one request
carrying the axis and position; a tick of a non-Forward stepper, of an axis
not in Moving (in particular one still Waiting), or of a Moving axis not yet
at target, emits none — so each settle produces exactly one request. -/
theorem C7_one_capture_per_settle (s : Stepper) :
    (s.scan_state = ScanState.MOVING → s.current_position = s.target_position →
      (s.stepper_num = 1 →
        s.update_scan_state.snd = [⟨s.axis, s.current_position⟩] ∧
        s.update_scan_state.fst.scan_state = ScanState.WAITING ∧
        s.update_scan_state.fst.update_scan_state.snd = []) ∧
      (s.stepper_num ≠ 1 → s.update_scan_state.snd = [])) ∧
    (s.scan_state ≠ ScanState.MOVING → s.update_scan_state.snd = []) ∧
    (s.current_position ≠ s.target_position → s.update_scan_state.snd = []) := by
  refine ⟨fun hm hc => ⟨fun hn => ?_, fun hn => ?_⟩, fun hm => ?_, fun hc => ?_⟩
  · refine ⟨?_, ?_, ?_⟩ <;> simp [Stepper.update_scan_state, hm, hc, hn]
  · simp [Stepper.update_scan_state, hm, hc, hn]
  · rcases hs : s.scan_state
    · simp [Stepper.update_scan_state, hs]
    · exact absurd hs hm
    · simp [Stepper.update_scan_state, hs]
  · rcases hs : s.scan_state
    · simp [Stepper.update_scan_state, hs]
    · simp [Stepper.update_scan_state, hs, hc]
    · simp [Stepper.update_scan_state, hs]

/-- Witness for C7: the concrete Forward stepper settling at 100 emits one
request (Forward, 100), and the following tick emits none. -/
theorem C7_one_capture_per_settle_witness :
    atTargetStepper.update_scan_state.snd = [⟨"Forward", 100⟩] ∧
    atTargetStepper.update_scan_state.fst.update_scan_state.snd = [] := by
  have h := ((C7_one_capture_per_settle atTargetStepper).1 rfl rfl).1 rfl
  exact ⟨h.1, h.2.2⟩

/-- Claim C8 (confirmed): `stop_scan` from any scan state ends in Idle with
the target equal to the motor handle's reported position (when a handle is
connected and energized — the halt commands presuppose one) and is
idempotent; `emergency_stop` is idempotent, safe with no scan active, and
always leaves all three axes Idle with the scanning flag false. -/
theorem C8_stop_and_emergency_idempotent (s : Stepper) (sys : ScanSystem) :
    s.stop_scan.scan_state = ScanState.IDLE ∧
    (s.ticConnected = true → s.energized = true →
      s.stop_scan.target_position = s.ticPos) ∧
    s.stop_scan.stop_scan = s.stop_scan ∧
    emergency_stop (emergency_stop sys) = emergency_stop sys ∧
    (emergency_stop sys).scanning = false ∧
    (emergency_stop sys).fwd.scan_state = ScanState.IDLE ∧
    (emergency_stop sys).yaw.scan_state = ScanState.IDLE ∧
    (emergency_stop sys).tilt.scan_state = ScanState.IDLE := by
  refine ⟨stop_scan_scan_state s, fun h1 h2 => stop_scan_target s h1 h2,
    stop_scan_idem s, ?_, rfl, stop_scan_scan_state _, stop_scan_scan_state _,
    stop_scan_scan_state _⟩
  simp [emergency_stop, stop_scan_idem]

/-- Witness for C8 at concrete states: stopping the ready stepper targets its
handle position, and emergency-stopping the mid-scan system twice equals
doing it once. -/
theorem C8_stop_and_emergency_idempotent_witness :
    readyStepper.stop_scan.target_position = readyStepper.ticPos ∧
    emergency_stop (emergency_stop midScanSystem) = emergency_stop midScanSystem :=
  ⟨(C8_stop_and_emergency_idempotent readyStepper midScanSystem).2.1 rfl rfl,
    (C8_stop_and_emergency_idempotent readyStepper midScanSystem).2.2.2.1⟩

/-- Claim C9 (corrected), counterexample: `zero_stepper` only guards on the
handle being connected and the motor initialized — a de-energized motor is
still zeroed (current position 5 becomes 0), so zeroing is not a no-op for a
non-energized motor. -/
theorem C9_counterexample :
    deenergizedStepper.energized = false ∧
    deenergizedStepper.current_position = 5 ∧
    deenergizedStepper.zero_stepper.current_position = 0 ∧
    deenergizedStepper.zero_stepper ≠ deenergizedStepper := by
  refine ⟨rfl, rfl, by decide, by decide⟩

/-- Claim C9 (corrected, amended): `zero_stepper` is a no-op unless the motor
handle is connected and the motor initialized (being energized is not
required); when permitted it ends Idle with the handle position redefined to
logical 0 and both current and target reset to 0, and if a scan was running
it is stopped first (the result is exactly the stopped state, zeroed). -/
theorem C9_zero_guard_and_reset (s : Stepper) :
    (s.ticConnected = false ∨ s.initialized = false → s.zero_stepper = s) ∧
    (s.ticConnected = true → s.initialized = true →
      s.zero_stepper.current_position = 0 ∧
      s.zero_stepper.target_position = 0 ∧
      s.zero_stepper.ticPos = 0 ∧
      s.zero_stepper.scan_state = ScanState.IDLE ∧
      (s.scan_state ≠ ScanState.IDLE →
        s.zero_stepper =
          { s.stop_scan with
              ticPos := 0, current_position := 0, target_position := 0 })) := by
  constructor
  · intro h
    rcases h with h | h <;> simp [Stepper.zero_stepper, h]
  · intro htic hini
    by_cases hs : s.scan_state = ScanState.IDLE
    · refine ⟨?_, ?_, ?_, ?_, fun hns => absurd hs hns⟩ <;>
        simp [Stepper.zero_stepper, htic, hini, hs]
    · have hz : s.zero_stepper =
          { s.stop_scan with
              ticPos := 0, current_position := 0, target_position := 0 } := by
        simp [Stepper.zero_stepper, htic, hini, hs]
      rw [hz]
      exact ⟨rfl, rfl, rfl, stop_scan_scan_state s, fun _ => rfl⟩

/-- Witness for C9's amended claim: zeroing the waiting (mid-scan) stepper
stops the scan and zeroes every position field. -/
theorem C9_zero_guard_and_reset_witness :
    waitingStepper.zero_stepper.current_position = 0 ∧
    waitingStepper.zero_stepper.target_position = 0 ∧
    waitingStepper.zero_stepper.scan_state = ScanState.IDLE := by
  have h := (C9_zero_guard_and_reset waitingStepper).2 rfl rfl
  exact ⟨h.1, h.2.1, h.2.2.2.1⟩

/-- Claim C10 (confirmed): when `continue_scan` completes the sequence (the
incremented index reaches the length of the position list) it calls
`stop_scan` internally, so the axis ends Idle with current_division reset to
0 — not left at its final value — and (given a connected, energized handle)
target_position equal to the motor's reported position. -/
theorem C10_completion_resets_division (s : Stepper)
    (hw : s.scan_state = ScanState.WAITING)
    (hend : s.divPositions.length ≤ s.current_division + 1) :
    s.continue_scan =
      Stepper.stop_scan { s with current_division := s.current_division + 1 } ∧
    s.continue_scan.current_division = 0 ∧
    s.continue_scan.scan_state = ScanState.IDLE ∧
    (s.ticConnected = true → s.energized = true →
      s.continue_scan.target_position = s.ticPos) := by
  have heq : s.continue_scan =
      Stepper.stop_scan { s with current_division := s.current_division + 1 } := by
    simp [Stepper.continue_scan, hw, hend]
  refine ⟨heq, ?_, ?_, fun h1 h2 => ?_⟩
  · rw [heq]
    exact stop_scan_current_division _
  · rw [heq]
    exact stop_scan_scan_state _
  · rw [heq]
    exact stop_scan_target _ h1 h2

/-- Witness for C10: the stepper dwelling at the last division of [0, 50, 100]
finishes into Idle at division 0 with target 100 (its handle position). -/
theorem C10_completion_resets_division_witness :
    lastDivisionStepper.continue_scan.current_division = 0 ∧
    lastDivisionStepper.continue_scan.scan_state = ScanState.IDLE ∧
    lastDivisionStepper.continue_scan.target_position = 100 := by
  have h := C10_completion_resets_division lastDivisionStepper rfl (by decide)
  exact ⟨h.2.1, h.2.2.1, h.2.2.2 rfl rfl⟩

/-- Claim C1 (confirmed): during an active full scan, whenever all three
status snapshots report Waiting, the sequencer advances exactly one axis
according to the nesting order Forward (stepper 1, innermost), then Tilt
(stepper 2), then Yaw (stepper 3, outermost) — the repository's executable
axis binding: if Forward has not exhausted its divisions it advances
Forward; else if Tilt has not, it resets Forward to division 0 (re-targeting
its first position in Moving) and advances Tilt; else if Yaw has not, it
resets Forward and Tilt to division 0 and advances Yaw; else it ends the
scan (scanning becomes false). -/
theorem C1_nesting_forward_tilt_yaw (sys : ScanSystem) (f t y : StepperStatus)
    (hscan : sys.scanning = true)
    (hf : sys.statFwd = some f) (ht : sys.statTilt = some t)
    (hy : sys.statYaw = some y)
    (hwf : f.scan_state = ScanState.WAITING)
    (hwt : t.scan_state = ScanState.WAITING)
    (hwy : y.scan_state = ScanState.WAITING) :
    (f.current_division < f.total_divisions - 1 →
      handle_scan_sequence sys = { sys with fwd := sys.fwd.continue_scan }) ∧
    (¬ f.current_division < f.total_divisions - 1 →
      t.current_division < t.total_divisions - 1 →
      handle_scan_sequence sys =
        { sys with fwd := sys.fwd.moveDiv0, tilt := sys.tilt.continue_scan }) ∧
    (¬ f.current_division < f.total_divisions - 1 →
      ¬ t.current_division < t.total_divisions - 1 →
      y.current_division < y.total_divisions - 1 →
      handle_scan_sequence sys =
        { sys with fwd := sys.fwd.moveDiv0, tilt := sys.tilt.moveDiv0,
                   yaw := sys.yaw.continue_scan }) ∧
    (¬ f.current_division < f.total_divisions - 1 →
      ¬ t.current_division < t.total_divisions - 1 →
      ¬ y.current_division < y.total_divisions - 1 →
      handle_scan_sequence sys = { sys with scanning := false }) := by
  refine ⟨?_, ?_, ?_, ?_⟩
  · intro h1
    simp_all [handle_scan_sequence]
  · intro h1 h2
    simp_all [handle_scan_sequence]
  · intro h1 h2 h3
    simp_all [handle_scan_sequence]
    rw [if_neg (by omega), if_neg (by omega)]
  · intro h1 h2 h3
    simp_all [handle_scan_sequence]
    rw [if_neg (by omega), if_neg (by omega), if_neg (by omega)]

/-- Witness for C1 at the concrete mid-scan system: Forward is exhausted and
Tilt is not, so Forward is reset to division 0 and Tilt advanced. -/
theorem C1_nesting_forward_tilt_yaw_witness :
    handle_scan_sequence midScanSystem =
      { midScanSystem with fwd := midScanSystem.fwd.moveDiv0,
                           tilt := midScanSystem.tilt.continue_scan } := by
  exact (C1_nesting_forward_tilt_yaw midScanSystem ⟨ScanState.WAITING, 1, 2⟩
    ⟨ScanState.WAITING, 0, 2⟩ ⟨ScanState.WAITING, 0, 2⟩ rfl (by decide)
    (by decide) (by decide) rfl rfl rfl).2.1 (by decide) (by decide)

end ScAnt
